import Mathlib

/-!
Verification of the price-trigger subscription and order-submission core of
`okx_trade_agent` (files `utils/okx_trade_tools.py` and `utils/subscription.py`).

The Python code is shallowly embedded: exchange responses are explicit data,
the mocked exchange client is a record of the responses it would return, and
each operation is a pure Lean function returning its result together with the
list of exchange calls it issued, in order.  Python `Decimal` arithmetic on
the quantization path is modelled over `ℚ`: the operands there are a lot-size
string (a short decimal) and `str(float)` values (at most 17 significant
digits), for which 28-digit `Decimal` division followed by `ROUND_DOWN`
truncation coincides with exact rational truncation.
-/

/-! ### Retry-and-backoff wrapper (`_RetryWrapper`, okx_trade_tools.py lines 50-84) -/

/-- An exchange response as seen by the retry wrapper: only the `code` field is
inspected (`res.get("code")`, absent key ↦ `none`); `tag` stands for the rest of
the payload so distinct responses stay distinct. -/
structure OkxResponse where
  code : Option String
  tag : Nat
deriving DecidableEq

def RETRY_CODES : List String := ["50001"]

def MAX_RETRIES : Nat := 2

def RETRY_DELAY : ℚ := 3/10

/-- `code in RETRY_CODES` for a possibly-absent code (Python `None` is in no
string set). -/
def isRetryableCode : Option String → Bool
  | some s => RETRY_CODES.contains s
  | none => false

/-- The `for i in range(MAX_RETRIES + 1)` loop of `_RetryWrapper.wrapped`:
`resp i` is the response of the i-th underlying call, `fuel` is the number of
loop iterations still allowed after the current one.  Returns the final
response, the total number of underlying calls made, and the list of sleep
durations (`RETRY_DELAY * 2 ** i`) in order. -/
def retryAux (resp : Nat → OkxResponse) (i : Nat) : Nat → OkxResponse × Nat × List ℚ
  | 0 => (resp i, i + 1, [])
  | fuel + 1 =>
    let r := resp i
    if isRetryableCode r.code then
      let rest := retryAux resp (i + 1) fuel
      (rest.1, rest.2.1, RETRY_DELAY * 2 ^ i :: rest.2.2)
    else
      (r, i + 1, [])

/-- One wrapped exchange call: run the retry loop from attempt 0. -/
def wrappedCall (resp : Nat → OkxResponse) : OkxResponse × Nat × List ℚ :=
  retryAux resp 0 MAX_RETRIES

/-! ### Size quantization (`_quantize_size`, okx_trade_tools.py lines 184-206) -/

inductive QuantizeError where
  /-- `lotSz` missing from the instrument metadata or unparsable (RuntimeError). -/
  | missingLotSz
  /-- `step_dec <= 0` (RuntimeError). -/
  | invalidLotSz
  /-- `quantized <= 0` (ValueError, the spec's ValidationError). -/
  | sizeTooSmall
deriving DecidableEq

/-- `Decimal.to_integral_value(rounding=ROUND_DOWN)`: truncation toward zero. -/
def roundDownToInt (q : ℚ) : ℤ := if 0 ≤ q then ⌊q⌋ else ⌈q⌉

/-- `_quantize_size` after the instrument fetch: divide by the lot step,
truncate to an integer number of steps, scale back, and reject non-positive
results.  The returned rational is the exact value of the formatted string
(the format uses exactly the step's number of decimals, which suffices). -/
def quantize_size (lotSz : Option ℚ) (baseSize : ℚ) : Except QuantizeError ℚ :=
  match lotSz with
  | none => .error .missingLotSz
  | some step =>
    if step ≤ 0 then .error .invalidLotSz
    else
      let multiples := roundDownToInt (baseSize / step)
      let quantized := (multiples : ℚ) * step
      if quantized ≤ 0 then .error .sizeTooSmall
      else .ok quantized

/-! ### Claims C1, C7, C3 -/

/-- C1: for every requested size `s > 0` and lot step `L > 0`, whenever the
quantization step returns a size `q`, we have `q ≤ s` and `q` is an exact
integer multiple of `L`; in particular with lot step 0.001 and requested size
0.0019 it returns 0.001. -/
theorem quantize_never_rounds_up (s L : ℚ) (hs : 0 < s) (hL : 0 < L) :
    (∀ q : ℚ, quantize_size (some L) s = Except.ok q →
      q ≤ s ∧ ∃ n : ℤ, q = (n : ℚ) * L) ∧
    quantize_size (some ((1 : ℚ)/1000)) ((19 : ℚ)/10000) = Except.ok ((1 : ℚ)/1000) := by
  constructor
  · intro q hq
    simp only [quantize_size] at hq
    rw [if_neg (not_le.mpr hL)] at hq
    by_cases hq0 : ((roundDownToInt (s / L) : ℚ) * L : ℚ) ≤ 0
    · rw [if_pos hq0] at hq
      exact absurd hq (by simp)
    · rw [if_neg hq0] at hq
      have hqe : (roundDownToInt (s / L) : ℚ) * L = q := by
        simpa using hq
      refine ⟨?_, roundDownToInt (s / L), hqe.symm⟩
      rw [← hqe]
      have hfloor : roundDownToInt (s / L) = ⌊s / L⌋ := by
        unfold roundDownToInt
        rw [if_pos (le_of_lt (div_pos hs hL))]
      rw [hfloor]
      calc (⌊s / L⌋ : ℚ) * L ≤ (s / L) * L :=
            mul_le_mul_of_nonneg_right (Int.floor_le _) hL.le
        _ = s := div_mul_cancel₀ s hL.ne'
  · simp only [quantize_size]
    norm_num [roundDownToInt]

/-- Witness for C1 at `s = 0.0019`, `L = 0.001`. -/
theorem quantize_never_rounds_up_witness :
    (1 : ℚ)/1000 ≤ (19 : ℚ)/10000 ∧ ∃ n : ℤ, (1 : ℚ)/1000 = (n : ℚ) * ((1 : ℚ)/1000) := by
  have h := quantize_never_rounds_up ((19 : ℚ)/10000) ((1 : ℚ)/1000)
    (by norm_num) (by norm_num)
  exact h.1 _ h.2

/-- C7: a requested size strictly between 0 and the lot step is rejected
(quantized result would be ≤ 0) instead of being returned. -/
theorem quantize_rejects_below_step (s L : ℚ) (hs : 0 < s) (hsL : s < L) :
    quantize_size (some L) s = Except.error QuantizeError.sizeTooSmall := by
  have hL : 0 < L := lt_trans hs hsL
  simp only [quantize_size]
  rw [if_neg (not_le.mpr hL)]
  have hdiv : roundDownToInt (s / L) = 0 := by
    unfold roundDownToInt
    rw [if_pos (le_of_lt (div_pos hs hL))]
    rw [Int.floor_eq_zero_iff]
    constructor
    · exact le_of_lt (div_pos hs hL)
    · rw [div_lt_one hL]; exact hsL
  rw [hdiv]
  norm_num

/-- Witness for C7 at `s = 0.0005`, `L = 0.001`. -/
theorem quantize_rejects_below_step_witness :
    quantize_size (some ((1 : ℚ)/1000)) ((1 : ℚ)/2000) =
      Except.error QuantizeError.sizeTooSmall :=
  quantize_rejects_below_step ((1 : ℚ)/2000) ((1 : ℚ)/1000) (by norm_num) (by norm_num)

/-- C3: a non-retryable first response is returned after exactly one call with
no sleeps; retryable codes on attempts 1 and 2 followed by any code on attempt
3 yield exactly 3 calls with sleeps 0.3s then 0.6s, returning the third
response (without raising even when it is still retryable); and no wrapped
call ever makes more than 3 underlying calls or more than 2 retries. -/
theorem retry_wrapper_behavior (resp : Nat → OkxResponse) :
    (isRetryableCode (resp 0).code = false → wrappedCall resp = (resp 0, 1, [])) ∧
    (isRetryableCode (resp 0).code = true → isRetryableCode (resp 1).code = true →
      isRetryableCode (resp 2).code = false →
      wrappedCall resp = (resp 2, 3, [(3 : ℚ)/10, (3 : ℚ)/5])) ∧
    (isRetryableCode (resp 0).code = true → isRetryableCode (resp 1).code = true →
      isRetryableCode (resp 2).code = true →
      wrappedCall resp = (resp 2, 3, [(3 : ℚ)/10, (3 : ℚ)/5])) ∧
    (wrappedCall resp).2.1 ≤ 3 ∧ (wrappedCall resp).2.2.length ≤ 2 := by
  refine ⟨?_, ?_, ?_, ?_, ?_⟩
  · intro h0
    simp [wrappedCall, MAX_RETRIES, retryAux, h0]
  · intro h0 h1 h2
    simp [wrappedCall, MAX_RETRIES, retryAux, h0, h1, h2, RETRY_DELAY]
    norm_num
  · intro h0 h1 h2
    simp [wrappedCall, MAX_RETRIES, retryAux, h0, h1, h2, RETRY_DELAY]
    norm_num
  · cases h0 : isRetryableCode (resp 0).code <;>
      cases h1 : isRetryableCode (resp 1).code <;>
      cases h2 : isRetryableCode (resp 2).code <;>
      simp [wrappedCall, MAX_RETRIES, retryAux, h0, h1, h2]
  · cases h0 : isRetryableCode (resp 0).code <;>
      cases h1 : isRetryableCode (resp 1).code <;>
      cases h2 : isRetryableCode (resp 2).code <;>
      simp [wrappedCall, MAX_RETRIES, retryAux, h0, h1, h2]

/-- Witness for C3: the three behaviors at concrete response sequences. -/
theorem retry_wrapper_behavior_witness :
    wrappedCall (fun i => ⟨if i < 2 then some "50001" else some "0", i⟩) =
      (⟨some "0", 2⟩, 3, [(3 : ℚ)/10, (3 : ℚ)/5]) ∧
    wrappedCall (fun _ => ⟨some "50001", 7⟩) =
      (⟨some "50001", 7⟩, 3, [(3 : ℚ)/10, (3 : ℚ)/5]) ∧
    wrappedCall (fun i => ⟨some "0", i⟩) = (⟨some "0", 0⟩, 1, []) := by
  refine ⟨?_, ?_, ?_⟩
  · have h := (retry_wrapper_behavior
      (fun i => ⟨if i < 2 then some "50001" else some "0", i⟩)).2.1
      (by decide) (by decide) (by decide)
    simpa using h
  · have h := (retry_wrapper_behavior (fun _ => ⟨some "50001", 7⟩)).2.2.1
      (by decide) (by decide) (by decide)
    simpa using h
  · have h := (retry_wrapper_behavior (fun i => ⟨some "0", i⟩)).1 (by decide)
    simpa using h

/-! ### Instrument id normalization (`_normalize_inst_id`, subscription.py lines 26-34)

Strings are embedded as `List Char`; `endswith`, `in`, and `split` become
their list counterparts.  Python's two-variable unpacking of `split("/")`
raises `ValueError` unless the split has exactly two parts, hence the
`Option` result. -/

def swapSuffix : List Char := ['-', 'S', 'W', 'A', 'P']

def strEndsWith (s suffix : List Char) : Bool := suffix.isSuffixOf s

def strContainsChar (s : List Char) (c : Char) : Bool := s.contains c

def normalize_inst_id (s : List Char) : Option (List Char) :=
  if strEndsWith s swapSuffix && strContainsChar s '-' then some s
  else if strContainsChar s '/' then
    match List.splitOn '/' ((List.splitOn ':' s).headD []) with
    | [base, quote] => some (base ++ ['-'] ++ quote ++ swapSuffix)
    | _ => none
  else some s

/-- C8: on every input the function accepts that is a derivative-native id
(ends in `-SWAP`) or contains a slash-quote pair, the output ends in the
settlement suffix `-SWAP`. -/
theorem normalize_inst_id_native_form (s r : List Char)
    (h : normalize_inst_id s = some r)
    (hshape : strEndsWith s swapSuffix = true ∨ strContainsChar s '/' = true) :
    strEndsWith r swapSuffix = true := by
  unfold normalize_inst_id at h
  by_cases h1 : (strEndsWith s swapSuffix && strContainsChar s '-') = true
  · rw [if_pos h1] at h
    cases h
    exact (Bool.and_eq_true _ _).mp h1 |>.1
  · rw [if_neg h1] at h
    by_cases h2 : strContainsChar s '/' = true
    · rw [if_pos h2] at h
      rcases h3 : List.splitOn '/' ((List.splitOn ':' s).headD []) with _ | ⟨base, tl⟩
      · rw [h3] at h; exact absurd h (by simp)
      · rcases tl with _ | ⟨quote, tl2⟩
        · rw [h3] at h; exact absurd h (by simp)
        · rcases tl2 with _ | ⟨x, tl3⟩
          · rw [h3] at h
            simp only [Option.some.injEq] at h
            subst h
            unfold strEndsWith
            rw [List.isSuffixOf_iff_suffix]
            have : base ++ ['-'] ++ quote ++ swapSuffix =
                (base ++ ['-'] ++ quote) ++ swapSuffix := by
              simp [List.append_assoc]
            rw [this]
            exact List.suffix_append _ _
          · rw [h3] at h; exact absurd h (by simp)
    · rw [if_neg h2] at h
      cases h
      rcases hshape with hsw | hsl
      · exact hsw
      · exact absurd hsl h2

/-- Witness for C8 on the ccxt-style symbol `BTC/USDT:USDT`. -/
theorem normalize_inst_id_native_form_witness :
    strEndsWith ['B','T','C','-','U','S','D','T','-','S','W','A','P'] swapSuffix = true :=
  normalize_inst_id_native_form
    ['B','T','C','/','U','S','D','T',':','U','S','D','T']
    ['B','T','C','-','U','S','D','T','-','S','W','A','P']
    (by decide) (Or.inr (by decide))

/-! ### Price subscription registry (`PriceSubscriptionManager`, subscription.py)

The manager state is the watcher dictionary (`_watchers`), the last trigger
record (`_last_trigger`) and the wake event (`_event`).  Feed messages are
embedded by the distinctions `_handle_message` makes: a raw string that may
fail `json.loads` or parse to a non-dict, a non-dict object, or a dict whose
`"data"` list (missing key ↦ `[]`) holds ticks.  Tick price fields are the
JSON strings of the tickers channel: a non-empty numeric string with value
`q`, the empty (falsy) string, or non-numeric junk. -/

structure Watcher where
  direction : String
  target_price : ℚ
  tolerance : ℚ
deriving DecidableEq

structure TriggerRec where
  inst_id : String
  last_price : ℚ
  target_price : ℚ
  direction : String
  mode : String
  status : String
deriving DecidableEq

structure MgrState where
  watchers : List (String × List Watcher)
  lastTrigger : Option TriggerRec
  eventSet : Bool
deriving DecidableEq

/-- `self._watchers.get(inst_id, [])`. -/
def lookupWatchers : List (String × List Watcher) → String → List Watcher
  | [], _ => []
  | (k', v) :: rest, k => if k' = k then v else lookupWatchers rest k

/-- `self._watchers[inst_id] = v` (update, inserting the key if absent). -/
def setWatchers : List (String × List Watcher) → String → List Watcher →
    List (String × List Watcher)
  | [], k, v => [(k, v)]
  | (k', v') :: rest, k, v =>
    if k' = k then (k, v) :: rest else (k', v') :: setWatchers rest k v

inductive PxField where
  /-- A non-empty string `float()` parses to `q` (truthy). -/
  | numStr (q : ℚ)
  /-- The empty string: falsy and unparsable. -/
  | emptyStr
  /-- A non-empty non-numeric string: truthy but unparsable. -/
  | junk
deriving DecidableEq

def PxField.truthy : PxField → Bool
  | .numStr _ => true
  | .emptyStr => false
  | .junk => true

structure Tick where
  instId : Option String
  lastField : Option PxField
  pxField : Option PxField
deriving DecidableEq

inductive Decoded where
  /-- A value that is not a dict. -/
  | notDict
  /-- A dict; `data` is its `"data"` list (missing key defaulted to `[]`). -/
  | dict (data : List Tick)
deriving DecidableEq

inductive WsMessage where
  /-- A raw string delivered by the SDK; `none` means `json.loads` raised. -/
  | str (parsed : Option Decoded)
  /-- An already-decoded object. -/
  | obj (d : Decoded)
deriving DecidableEq

/-- `tick.get("last") or tick.get("px")`. -/
def pickPx (lastF pxF : Option PxField) : Option PxField :=
  match lastF with
  | some v => if v.truthy then some v else pxF
  | none => pxF

/-- `float(...)` on the picked field; `none` means TypeError/ValueError. -/
def parsePx : Option PxField → Option ℚ
  | some (.numStr q) => some q
  | _ => none

/-- The early-return chain of `_handle_message`: yields the instrument id and
price of the first tick, or `none` when the message is discarded (bad JSON,
non-dict, missing/empty data, falsy instrument id, unparsable price). -/
def extractTick (msg : WsMessage) : Option (String × ℚ) :=
  match (match msg with
         | .str none => none
         | .str (some dec) => some dec
         | .obj dec => some dec : Option Decoded) with
  | none => none
  | some .notDict => none
  | some (.dict []) => none
  | some (.dict (tick :: _)) =>
    match tick.instId with
    | none => none
    | some iid =>
      if iid = "" then none
      else
        match parsePx (pickPx tick.lastField tick.pxField) with
        | none => none
        | some q => some (iid, q)

/-- The body of the watcher loop in `_handle_message`: an `above` watcher hits
when `price ≥ target − tolerance`, a `below` watcher when
`price ≤ target + tolerance`; a hit records the trigger and sets the event and
the watcher is dropped, a miss keeps the watcher, and any other direction is
skipped (`continue`) without being kept. -/
def stepWatcher (iid : String) (price : ℚ) (acc : MgrState × List Watcher)
    (w : Watcher) : MgrState × List Watcher :=
  if w.direction = "above" then
    if w.target_price - w.tolerance ≤ price then
      ({ acc.1 with
          lastTrigger := some ⟨iid, price, w.target_price, w.direction,
            "websocket", "triggered"⟩,
          eventSet := true }, acc.2)
    else (acc.1, acc.2 ++ [w])
  else if w.direction = "below" then
    if price ≤ w.target_price + w.tolerance then
      ({ acc.1 with
          lastTrigger := some ⟨iid, price, w.target_price, w.direction,
            "websocket", "triggered"⟩,
          eventSet := true }, acc.2)
    else (acc.1, acc.2 ++ [w])
  else (acc.1, acc.2)

/-- The watcher-evaluation part of `_handle_message`: fold the loop body over
the instrument's watchers and store the remaining list back. -/
def processTick (iid : String) (price : ℚ) (s : MgrState) : MgrState :=
  let out := (lookupWatchers s.watchers iid).foldl (stepWatcher iid price) (s, [])
  { out.1 with watchers := setWatchers out.1.watchers iid out.2 }

/-- `_handle_message`. -/
def handle_message (msg : WsMessage) (s : MgrState) : MgrState :=
  match extractTick msg with
  | none => s
  | some (iid, price) => processTick iid price s

/-- A well-formed tickers message for instrument `iid` with last price `price`. -/
def tickMsg (iid : String) (price : ℚ) : WsMessage :=
  .obj (.dict [{ instId := some iid, lastField := some (.numStr price), pxField := none }])

/-! ### Polling fallback (`_poll_price`, subscription.py lines 146-205) -/

inductive PollRes where
  /-- Returned dict with `status: "triggered"`, its last price, and the number
  of price samples taken. -/
  | triggered (lastPrice : ℚ) (samples : Nat)
  /-- Returned dict with `status: "expired"`, its last price, and the number
  of price samples taken. -/
  | expired (lastPrice : ℚ) (samples : Nat)
  /-- `ValueError` for a direction that is neither `above` nor `below`. -/
  | badDirection
deriving DecidableEq

/-- The trigger predicate of the polling loop (the same conditional chain as
the feed path): `none` is the `ValueError` branch. -/
def pollHitCheck (direction : String) (target tol price : ℚ) : Option Bool :=
  if direction = "above" then some (decide (target - tol ≤ price))
  else if direction = "below" then some (decide (price ≤ target + tol))
  else none

/-- The `while True` loop of `_poll_price`: `prices j` is the price returned
by the j-th `_get_current_price` call, `i` the index of the next sample,
`checks` the running check counter, and `fuel` bounds how many further
iterations we unroll (`none` = the loop is still running after `fuel`
iterations). -/
def pollAux (prices : Nat → ℚ) (target tol : ℚ) (direction : String)
    (maxChecks : Option Nat) : Nat → Nat → Nat → Option PollRes
  | 0, _, _ => none
  | fuel + 1, i, checks =>
    match pollHitCheck direction target tol (prices i) with
    | none => some .badDirection
    | some true => some (.triggered (prices i) (i + 1))
    | some false =>
      match maxChecks with
      | some m =>
        if m ≤ checks + 1 then some (.expired (prices i) (i + 1))
        else pollAux prices target tol direction maxChecks fuel (i + 1) (checks + 1)
      | none => pollAux prices target tol direction maxChecks fuel (i + 1) (checks + 1)

/-- `_poll_price`, started with sample index 0 and `checks = 0`. -/
def poll_price (prices : Nat → ℚ) (target tol : ℚ) (direction : String)
    (maxChecks : Option Nat) (fuel : Nat) : Option PollRes :=
  pollAux prices target tol direction maxChecks fuel 0 0

/-! ### Claim C4 -/

/-- C4: on both the feed path and the polling path, an `above` watcher
triggers exactly when `price ≥ target − tolerance` and a `below` watcher
exactly when `price ≤ target + tolerance`; in particular with target 100 and
tolerance 0.5 an `above` watcher triggers at 99.6 and not at 99.4. -/
theorem trigger_predicate_both_paths (t tol p : ℚ) :
    ((handle_message (tickMsg "I" p)
        ⟨[("I", [⟨"above", t, tol⟩])], none, false⟩).eventSet = true ↔ t - tol ≤ p) ∧
    ((handle_message (tickMsg "I" p)
        ⟨[("I", [⟨"below", t, tol⟩])], none, false⟩).eventSet = true ↔ p ≤ t + tol) ∧
    (∀ d : String, d = "above" ∨ d = "below" →
      (poll_price (fun _ => p) t tol d none 1 = some (PollRes.triggered p 1) ↔
        (handle_message (tickMsg "I" p)
          ⟨[("I", [⟨d, t, tol⟩])], none, false⟩).eventSet = true)) ∧
    (handle_message (tickMsg "I" ((996 : ℚ)/10))
        ⟨[("I", [⟨"above", 100, (1 : ℚ)/2⟩])], none, false⟩).eventSet = true ∧
    (handle_message (tickMsg "I" ((994 : ℚ)/10))
        ⟨[("I", [⟨"above", 100, (1 : ℚ)/2⟩])], none, false⟩).eventSet = false := by
  have habove : ∀ (t' tol' p' : ℚ),
      ((handle_message (tickMsg "I" p')
        ⟨[("I", [⟨"above", t', tol'⟩])], none, false⟩).eventSet = true ↔ t' - tol' ≤ p') := by
    intro t' tol' p'
    by_cases h : t' - tol' ≤ p' <;>
      simp [handle_message, extractTick, tickMsg, parsePx, pickPx, PxField.truthy,
        processTick, lookupWatchers, stepWatcher, h]
  refine ⟨habove t tol p, ?_, ?_, (habove 100 ((1 : ℚ)/2) ((996 : ℚ)/10)).mpr (by norm_num), ?_⟩
  · by_cases h : p ≤ t + tol <;>
      simp [handle_message, extractTick, tickMsg, parsePx, pickPx, PxField.truthy,
        processTick, lookupWatchers, stepWatcher, h]
  · rintro d (rfl | rfl)
    · by_cases h : t - tol ≤ p <;>
        simp [handle_message, extractTick, tickMsg, parsePx, pickPx, PxField.truthy,
          processTick, lookupWatchers, stepWatcher, poll_price, pollAux, pollHitCheck, h]
    · by_cases h : p ≤ t + tol <;>
        simp [handle_message, extractTick, tickMsg, parsePx, pickPx, PxField.truthy,
          processTick, lookupWatchers, stepWatcher, poll_price, pollAux, pollHitCheck, h]
  · cases hE : (handle_message (tickMsg "I" ((994 : ℚ)/10))
        ⟨[("I", [⟨"above", 100, (1 : ℚ)/2⟩])], none, false⟩).eventSet
    · rfl
    · exact absurd ((habove 100 ((1 : ℚ)/2) ((994 : ℚ)/10)).mp hE) (by norm_num)

/-- Witness for C4: the `above` predicate at target 100, tolerance 0.5,
price 99.6, on the polling path versus the feed path. -/
theorem trigger_predicate_both_paths_witness :
    poll_price (fun _ => (996 : ℚ)/10) 100 ((1 : ℚ)/2) "above" none 1 =
        some (PollRes.triggered ((996 : ℚ)/10) 1) ↔
      (handle_message (tickMsg "I" ((996 : ℚ)/10))
        ⟨[("I", [⟨"above", 100, (1 : ℚ)/2⟩])], none, false⟩).eventSet = true :=
  (trigger_predicate_both_paths 100 ((1 : ℚ)/2) ((996 : ℚ)/10)).2.2.1 "above" (Or.inl rfl)

/-! ### Claim C5 -/

/-- When every sample before index `n` misses, the bounded polling loop
(`max_checks = n`) returns EXPIRED at the n-th sample.  The running check
counter equals the sample index in every real call. -/
theorem pollAux_expired_of_misses (prices : Nat → ℚ) (t tol : ℚ) (d : String) (n : Nat)
    (hmiss : ∀ j, j < n → pollHitCheck d t tol (prices j) = some false) :
    ∀ fuel i, i < n → n ≤ i + fuel →
      pollAux prices t tol d (some n) fuel i i =
        some (PollRes.expired (prices (n - 1)) n) := by
  intro fuel
  induction fuel with
  | zero => intro i h1 h2; omega
  | succ f ih =>
    intro i h1 h2
    simp only [pollAux, hmiss i h1]
    by_cases hend : n ≤ i + 1
    · rw [if_pos hend]
      obtain rfl : n = i + 1 := by omega
      simp
    · rw [if_neg hend]
      exact ih (i + 1) (by omega) (by omega)

/-- With no `max_checks` and no matching sample, the polling loop is still
running after any number of iterations. -/
theorem pollAux_runs_forever (prices : Nat → ℚ) (t tol : ℚ) (d : String)
    (hmiss : ∀ j, pollHitCheck d t tol (prices j) = some false) :
    ∀ fuel i, pollAux prices t tol d none fuel i i = none := by
  intro fuel
  induction fuel with
  | zero => intro i; rfl
  | succ f ih =>
    intro i
    simp only [pollAux, hmiss i]
    exact ih (i + 1)

/-- With no `max_checks`, the first matching sample at index `k` returns
TRIGGERED with that price after `k + 1` samples. -/
theorem pollAux_until_hit (prices : Nat → ℚ) (t tol : ℚ) (d : String) (k : Nat)
    (hmiss : ∀ j, j < k → pollHitCheck d t tol (prices j) = some false)
    (hhit : pollHitCheck d t tol (prices k) = some true) :
    ∀ fuel i, i ≤ k → k < i + fuel →
      pollAux prices t tol d none fuel i i =
        some (PollRes.triggered (prices k) (k + 1)) := by
  intro fuel
  induction fuel with
  | zero => intro i h1 h2; omega
  | succ f ih =>
    intro i h1 h2
    by_cases hik : i = k
    · subst hik
      simp only [pollAux, hhit]
    · have hlt : i < k := by omega
      simp only [pollAux, hmiss i hlt]
      exact ih (i + 1) (by omega) (by omega)

/-- C5: a polling watcher with `max_checks = n ≥ 1` whose price never matches
ends with status EXPIRED after exactly `n` price samples (for any fuel ≥ n,
i.e. no further samples are taken); with `max_checks` absent the loop runs
forever while no sample matches, and returns TRIGGERED at the first matching
sample. -/
theorem poll_expiry_bound (prices : Nat → ℚ) (d : String) (t tol : ℚ) :
    (∀ n fuel, 1 ≤ n → n ≤ fuel →
      (∀ i, i < n → pollHitCheck d t tol (prices i) = some false) →
      poll_price prices t tol d (some n) fuel =
        some (PollRes.expired (prices (n - 1)) n)) ∧
    ((∀ i, pollHitCheck d t tol (prices i) = some false) →
      ∀ fuel, poll_price prices t tol d none fuel = none) ∧
    (∀ k fuel, (∀ i, i < k → pollHitCheck d t tol (prices i) = some false) →
      pollHitCheck d t tol (prices k) = some true → k < fuel →
      poll_price prices t tol d none fuel =
        some (PollRes.triggered (prices k) (k + 1))) := by
  refine ⟨?_, ?_, ?_⟩
  · intro n fuel h1 h2 hmiss
    exact pollAux_expired_of_misses prices t tol d n hmiss fuel 0 (by omega) (by omega)
  · intro hmiss fuel
    exact pollAux_runs_forever prices t tol d hmiss fuel 0
  · intro k fuel hmiss hhit hk
    exact pollAux_until_hit prices t tol d k hmiss hhit fuel 0 (by omega) (by omega)

/-- Witness for C5: `max_checks = 3` with a never-matching price expires after
exactly 3 samples; without `max_checks` the same prices leave the loop
running, and a price matching at sample index 2 triggers with 3 samples. -/
theorem poll_expiry_bound_witness :
    poll_price (fun _ => (99 : ℚ)) 1000 0 "above" (some 3) 5 =
        some (PollRes.expired 99 3) ∧
    poll_price (fun _ => (99 : ℚ)) 1000 0 "above" none 7 = none ∧
    poll_price (fun i => if i = 2 then (2000 : ℚ) else 99) 1000 0 "above" none 7 =
        some (PollRes.triggered 2000 3) := by
  refine ⟨?_, ?_, ?_⟩
  · have h := (poll_expiry_bound (fun _ => (99 : ℚ)) "above" 1000 0).1 3 5
      (by omega) (by omega)
      (by intro i hi; norm_num [pollHitCheck])
    simpa using h
  · exact (poll_expiry_bound (fun _ => (99 : ℚ)) "above" 1000 0).2.1
      (by intro i; norm_num [pollHitCheck]) 7
  · have h := (poll_expiry_bound (fun i => if i = 2 then (2000 : ℚ) else 99) "above" 1000 0).2.2
      2 7
      (by intro i hi
          have hne : i ≠ 2 := by omega
          simp only [hne, if_false]
          norm_num [pollHitCheck])
      (by norm_num [pollHitCheck])
      (by omega)
    simpa using h

/-! ### Claims C9 and C10 -/

/-- C9: every malformed feed message — a string `json.loads` rejects, a string
parsing to a non-dict, a non-dict object, a dict with missing or empty data,
a first tick without an instrument id (or with the falsy empty id), or a tick
whose price field does not parse to a number — leaves the whole manager state
(watchers, last trigger, wake event) unchanged. -/
theorem malformed_message_is_noop (s : MgrState) :
    handle_message (.str none) s = s ∧
    handle_message (.str (some .notDict)) s = s ∧
    handle_message (.obj .notDict) s = s ∧
    handle_message (.obj (.dict [])) s = s ∧
    handle_message (.str (some (.dict []))) s = s ∧
    (∀ (tick : Tick) (rest : List Tick), tick.instId = none →
      handle_message (.obj (.dict (tick :: rest))) s = s) ∧
    (∀ (tick : Tick) (rest : List Tick), tick.instId = some "" →
      handle_message (.obj (.dict (tick :: rest))) s = s) ∧
    (∀ (tick : Tick) (rest : List Tick),
      parsePx (pickPx tick.lastField tick.pxField) = none →
      handle_message (.obj (.dict (tick :: rest))) s = s) := by
  refine ⟨rfl, rfl, rfl, rfl, rfl, ?_, ?_, ?_⟩
  · intro tick rest h
    simp [handle_message, extractTick, h]
  · intro tick rest h
    simp [handle_message, extractTick, h]
  · intro tick rest h
    rcases hins : tick.instId with _ | iid <;>
      simp [handle_message, extractTick, hins, h]

/-- Witness for C9: a tick with no instrument id, and a tick with a junk
price string, against a one-watcher state. -/
theorem malformed_message_is_noop_witness :
    handle_message (.obj (.dict [{ instId := none, lastField := none, pxField := none }]))
        ⟨[("I", [⟨"above", 7, 0⟩])], none, false⟩ =
      ⟨[("I", [⟨"above", 7, 0⟩])], none, false⟩ ∧
    handle_message
        (.obj (.dict [{ instId := some "I", lastField := some .junk, pxField := none }]))
        ⟨[("I", [⟨"above", 7, 0⟩])], none, false⟩ =
      ⟨[("I", [⟨"above", 7, 0⟩])], none, false⟩ := by
  constructor
  · exact (malformed_message_is_noop ⟨[("I", [⟨"above", 7, 0⟩])], none, false⟩).2.2.2.2.2.1
      { instId := none, lastField := none, pxField := none } [] rfl
  · exact (malformed_message_is_noop ⟨[("I", [⟨"above", 7, 0⟩])], none, false⟩).2.2.2.2.2.2.2
      { instId := some "I", lastField := some .junk, pxField := none } [] rfl

/-- Every watcher kept by the `_handle_message` loop has direction `above` or
`below` (or was already in the accumulator). -/
theorem stepWatcher_foldl_mem (iid : String) (price : ℚ) :
    ∀ (l : List Watcher) (acc : MgrState × List Watcher) (v : Watcher),
      v ∈ (l.foldl (stepWatcher iid price) acc).2 →
      v ∈ acc.2 ∨ v.direction = "above" ∨ v.direction = "below" := by
  intro l
  induction l with
  | nil => intro acc v hv; exact Or.inl hv
  | cons w tl ih =>
    intro acc v hv
    rw [List.foldl_cons] at hv
    rcases ih _ v hv with h | h
    · unfold stepWatcher at h
      by_cases hd : w.direction = "above"
      · rw [if_pos hd] at h
        by_cases hh : w.target_price - w.tolerance ≤ price
        · rw [if_pos hh] at h; exact Or.inl h
        · rw [if_neg hh] at h
          rcases List.mem_append.mp h with h' | h'
          · exact Or.inl h'
          · have : v = w := by simpa using h'
            subst this
            exact Or.inr (Or.inl hd)
      · rw [if_neg hd] at h
        by_cases hd2 : w.direction = "below"
        · rw [if_pos hd2] at h
          by_cases hh : price ≤ w.target_price + w.tolerance
          · rw [if_pos hh] at h; exact Or.inl h
          · rw [if_neg hh] at h
            rcases List.mem_append.mp h with h' | h'
            · exact Or.inl h'
            · have : v = w := by simpa using h'
              subst this
              exact Or.inr (Or.inr hd2)
        · rw [if_neg hd2] at h; exact Or.inl h
    · exact Or.inr h

/-- A watcher list made only of invalid directions passes through the
`_handle_message` loop without touching the state or keeping anyone. -/
theorem stepWatcher_foldl_all_invalid (iid : String) (price : ℚ) :
    ∀ (l : List Watcher) (acc : MgrState × List Watcher),
      (∀ w ∈ l, w.direction ≠ "above" ∧ w.direction ≠ "below") →
      l.foldl (stepWatcher iid price) acc = acc := by
  intro l
  induction l with
  | nil => intro acc _; rfl
  | cons w tl ih =>
    intro acc hbad
    rw [List.foldl_cons]
    have hw := hbad w (List.mem_cons_self w tl)
    have hstep : stepWatcher iid price acc w = acc := by
      unfold stepWatcher
      rw [if_neg hw.1, if_neg hw.2]
    rw [hstep]
    exact ih acc (fun v hv => hbad v (List.mem_cons_of_mem w hv))

/-- Storing then reading the same key of the watcher dictionary. -/
theorem lookupWatchers_setWatchers (m : List (String × List Watcher)) (k : String)
    (v : List Watcher) : lookupWatchers (setWatchers m k v) k = v := by
  induction m with
  | nil => simp [setWatchers, lookupWatchers]
  | cons kv rest ih =>
    obtain ⟨k', v'⟩ := kv
    by_cases hk : k' = k
    · simp [setWatchers, hk, lookupWatchers]
    · simp [setWatchers, hk, lookupWatchers, ih]

/-- C10: a registered watcher whose direction is neither `above` nor `below`
is removed from its instrument's active list by the first tick processed for
that instrument; and when all of the instrument's watchers are such, the tick
triggers nothing: last trigger and wake event are unchanged and the active
list is emptied. -/
theorem invalid_direction_watcher_discarded (iid : String) (price : ℚ) (s : MgrState)
    (w : Watcher) (hne : iid ≠ "") (_hmem : w ∈ lookupWatchers s.watchers iid)
    (ha : w.direction ≠ "above") (hb : w.direction ≠ "below") :
    w ∉ lookupWatchers (handle_message (tickMsg iid price) s).watchers iid ∧
    ((∀ v ∈ lookupWatchers s.watchers iid,
        v.direction ≠ "above" ∧ v.direction ≠ "below") →
      (handle_message (tickMsg iid price) s).lastTrigger = s.lastTrigger ∧
      (handle_message (tickMsg iid price) s).eventSet = s.eventSet ∧
      lookupWatchers (handle_message (tickMsg iid price) s).watchers iid = []) := by
  have hmsg : handle_message (tickMsg iid price) s = processTick iid price s := by
    simp [handle_message, extractTick, tickMsg, parsePx, pickPx, PxField.truthy, hne]
  constructor
  · intro hcontra
    rw [hmsg] at hcontra
    simp only [processTick] at hcontra
    rw [lookupWatchers_setWatchers] at hcontra
    rcases stepWatcher_foldl_mem iid price _ _ _ hcontra with h | h | h
    · simp at h
    · exact ha h
    · exact hb h
  · intro hall
    have hfold := stepWatcher_foldl_all_invalid iid price
      (lookupWatchers s.watchers iid) (s, []) hall
    rw [hmsg]
    simp only [processTick, hfold]
    exact ⟨trivial, trivial, lookupWatchers_setWatchers _ _ _⟩

/-- Witness for C10: a watcher with direction `sideways` is silently dropped
by a tick and triggers nothing. -/
theorem invalid_direction_watcher_discarded_witness :
    (⟨"sideways", 5, 0⟩ : Watcher) ∉
      lookupWatchers (handle_message (tickMsg "I" 1)
        ⟨[("I", [⟨"sideways", 5, 0⟩])], none, false⟩).watchers "I" ∧
    (handle_message (tickMsg "I" 1)
        ⟨[("I", [⟨"sideways", 5, 0⟩])], none, false⟩).lastTrigger = none ∧
    (handle_message (tickMsg "I" 1)
        ⟨[("I", [⟨"sideways", 5, 0⟩])], none, false⟩).eventSet = false ∧
    lookupWatchers (handle_message (tickMsg "I" 1)
        ⟨[("I", [⟨"sideways", 5, 0⟩])], none, false⟩).watchers "I" = [] := by
  have h := invalid_direction_watcher_discarded "I" 1
    ⟨[("I", [⟨"sideways", 5, 0⟩])], none, false⟩ ⟨"sideways", 5, 0⟩
    (by decide) (by simp [lookupWatchers]) (by decide) (by decide)
  have h2 := h.2 (by simp [lookupWatchers])
  exact ⟨h.1, h2.1, h2.2.1, h2.2.2⟩

/-! ### Order submission pipeline (`place_okx_order`, okx_trade_tools.py lines 654-796)

The exchange client (already wrapped by `_RetryWrapper`) is mocked by a record
of the data its calls would yield; each run returns the ordered list of calls
it issued to the client together with its result.  `_get_instrument`'s own
code/data checks are folded into the `Option Instrument` of the mock, and the
date/uuid client-order id is an oracle string of the mock. -/

/-- Instrument metadata used by the pipeline; `none` models a missing or
unparsable field (each raises RuntimeError at its use site). -/
structure Instrument where
  lotSz : Option ℚ
  ctVal : Option ℚ
deriving DecidableEq

structure MockExchange where
  /-- `availBal` of the USDT entry of `get_account_balance` (0 if absent). -/
  usdtAvail : ℚ
  /-- `posMode` of `get_account_config`; `none` also covers a failing call,
  which the source swallows (`except: pos_mode = None`). -/
  configPosMode : Option String
  /-- `code` of `set_position_mode`. -/
  switchCode : Option String
  /-- `code` of `set_leverage`. -/
  leverageCode : Option String
  /-- `get_instruments` result; `none` models code/data failure. -/
  instrument : Option Instrument
  /-- `code` of `place_order`. -/
  orderCode : Option String
  /-- `sCode` of the first order in the `place_order` response. -/
  orderSCode : Option String
  /-- `ordId` echoed by the exchange. -/
  ordId : String
  /-- Oracle for the generated date/uuid client order id. -/
  clOrdId : String
deriving DecidableEq

/-- The caller-supplied arguments of `place_okx_order`.  The two stop levels
are `Option`s: `none` models an absent (null) value, which `float(None)`
rejects inside the numeric-conversion `try` block. -/
structure TradeIntent where
  instId : List Char
  side : String
  posSide : String
  usdt_amount : ℚ
  limit_px : ℚ
  take_profit : Option ℚ
  stop_loss : Option ℚ
  td_mode : String
  leverage : ℤ
deriving DecidableEq

structure OrderPayload where
  instId : List Char
  tdMode : String
  side : String
  posSide : String
  px : ℚ
  sz : ℚ
  clOrdId : String
  tpTriggerPx : ℚ
  slTriggerPx : ℚ
deriving DecidableEq

inductive ApiCall where
  | getAccountBalance
  | getAccountConfig
  | setPositionMode (posMode : String)
  | setLeverage (instId : List Char) (mgnMode : String) (lever : ℤ) (posSide : Option String)
  | getInstruments (instId : List Char)
  | placeOrder (payload : OrderPayload)
deriving DecidableEq

inductive OrderError where
  /-- `instId` does not end in `-SWAP`. -/
  | notSwap
  /-- `side` not in `{buy, sell}`. -/
  | badSide
  /-- `posSide` not in `{long, short, net}`. -/
  | badPosSide
  /-- The numeric-conversion block fails (here: an absent stop level, since
  `float(None)` raises; the dead `is None` re-check below it is unreachable). -/
  | notNumber
  /-- `usdt_amount ≤ 0` or `limit_px ≤ 0`. -/
  | nonPositive
  /-- `leverage ≤ 0`. -/
  | badLeverage
  | insufficientBalance
  | modeSwitchFailed
  | leverageFailed
  /-- `_get_instrument` failed (bad code or empty data). -/
  | instrumentNotFound
  | missingCtVal
  | invalidCtVal
  | quantize (e : QuantizeError)
  | orderFailed
  | orderRejected
deriving DecidableEq

structure OrderResult where
  ordId : String
  clOrdId : String
  sz : ℚ
deriving DecidableEq

/-- `result.get("code") not in [None, "0"]`, negated (also used for `sCode`
with `not in ["0", None]`). -/
def okCode : Option String → Bool
  | none => true
  | some s => s == "0"

/-- `"long_short_mode" if posSide in {"long", "short"} else "net_mode"`. -/
def desiredPosMode (posSide : String) : String :=
  if posSide = "long" ∨ posSide = "short" then "long_short_mode" else "net_mode"

/-- The `posSide` entry of the `set_leverage` parameters: present only for
isolated margin with a directional position side. -/
def levPosSide (it : TradeIntent) : Option String :=
  if it.td_mode = "isolated" ∧ it.posSide ≠ "net" then some it.posSide else none

/-- The rest of `place_okx_order` after the position-mode reconciliation:
set leverage, compute the contract count from margin × leverage / price and
`ctVal`, quantize it to `lotSz` (re-fetching the instrument as
`_quantize_size` does), and place the limit order with attached stops.
`t` is the call trace accumulated so far. -/
def placeAfterMode (env : MockExchange) (it : TradeIntent) (t : List ApiCall)
    (takeProfit stopLoss : ℚ) : List ApiCall × Except OrderError OrderResult :=
  if okCode env.leverageCode = false then
    (t ++ [ApiCall.setLeverage it.instId it.td_mode it.leverage
        (levPosSide it)],
     .error .leverageFailed)
  else
    match env.instrument with
    | none =>
      (t ++ [ApiCall.setLeverage it.instId it.td_mode it.leverage
          (levPosSide it),
        ApiCall.getInstruments it.instId],
       .error .instrumentNotFound)
    | some inst =>
      match inst.ctVal with
      | none =>
        (t ++ [ApiCall.setLeverage it.instId it.td_mode it.leverage
            (levPosSide it),
          ApiCall.getInstruments it.instId],
         .error .missingCtVal)
      | some ctVal =>
        if ctVal ≤ 0 then
          (t ++ [ApiCall.setLeverage it.instId it.td_mode it.leverage
              (levPosSide it),
            ApiCall.getInstruments it.instId],
           .error .invalidCtVal)
        else
          match quantize_size inst.lotSz
              (it.usdt_amount * (it.leverage : ℚ) / it.limit_px / ctVal) with
          | .error e =>
            (t ++ [ApiCall.setLeverage it.instId it.td_mode it.leverage
                (levPosSide it),
              ApiCall.getInstruments it.instId, ApiCall.getInstruments it.instId],
             .error (.quantize e))
          | .ok sz =>
            if okCode env.orderCode = false then
              (t ++ [ApiCall.setLeverage it.instId it.td_mode it.leverage
                  (levPosSide it),
                ApiCall.getInstruments it.instId, ApiCall.getInstruments it.instId,
                ApiCall.placeOrder ⟨it.instId, it.td_mode, it.side, it.posSide,
                  it.limit_px, sz, env.clOrdId, takeProfit, stopLoss⟩],
               .error .orderFailed)
            else if okCode env.orderSCode = false then
              (t ++ [ApiCall.setLeverage it.instId it.td_mode it.leverage
                  (levPosSide it),
                ApiCall.getInstruments it.instId, ApiCall.getInstruments it.instId,
                ApiCall.placeOrder ⟨it.instId, it.td_mode, it.side, it.posSide,
                  it.limit_px, sz, env.clOrdId, takeProfit, stopLoss⟩],
               .error .orderRejected)
            else
              (t ++ [ApiCall.setLeverage it.instId it.td_mode it.leverage
                  (levPosSide it),
                ApiCall.getInstruments it.instId, ApiCall.getInstruments it.instId,
                ApiCall.placeOrder ⟨it.instId, it.td_mode, it.side, it.posSide,
                  it.limit_px, sz, env.clOrdId, takeProfit, stopLoss⟩],
               .ok ⟨env.ordId, env.clOrdId, sz⟩)

/-- `place_okx_order`: validate the arguments, check the USDT balance,
reconcile the account position mode with the requested position side, then
hand over to `placeAfterMode`. -/
def place_okx_order (env : MockExchange) (it : TradeIntent) :
    List ApiCall × Except OrderError OrderResult :=
  if strEndsWith it.instId swapSuffix = false then ([], .error .notSwap)
  else if ¬ (it.side = "buy" ∨ it.side = "sell") then ([], .error .badSide)
  else if ¬ (it.posSide = "long" ∨ it.posSide = "short" ∨ it.posSide = "net") then
    ([], .error .badPosSide)
  else
    match it.take_profit, it.stop_loss with
    | none, _ => ([], .error .notNumber)
    | some _, none => ([], .error .notNumber)
    | some takeProfit, some stopLoss =>
      if it.usdt_amount ≤ 0 ∨ it.limit_px ≤ 0 then ([], .error .nonPositive)
      else if it.leverage ≤ 0 then ([], .error .badLeverage)
      else if env.usdtAvail < it.usdt_amount then
        ([ApiCall.getAccountBalance], .error .insufficientBalance)
      else if env.configPosMode ≠ some (desiredPosMode it.posSide) then
        if okCode env.switchCode = false then
          ([ApiCall.getAccountBalance, ApiCall.getAccountConfig,
            ApiCall.setPositionMode (desiredPosMode it.posSide)],
           .error .modeSwitchFailed)
        else
          placeAfterMode env it
            [ApiCall.getAccountBalance, ApiCall.getAccountConfig,
             ApiCall.setPositionMode (desiredPosMode it.posSide)] takeProfit stopLoss
      else
        placeAfterMode env it [ApiCall.getAccountBalance, ApiCall.getAccountConfig]
          takeProfit stopLoss

/-! ### Claim C2 -/

/-- Every run of `placeAfterMode` issues the leverage call first, then the
(up to two) instrument fetches, then at most one order placement, appended to
the calls already made. -/
theorem placeAfterMode_trace (env : MockExchange) (it : TradeIntent) (t : List ApiCall)
    (tp sl : ℚ) :
    (placeAfterMode env it t tp sl).1 =
      t ++ [ApiCall.setLeverage it.instId it.td_mode it.leverage (levPosSide it)] ∨
    (placeAfterMode env it t tp sl).1 =
      t ++ [ApiCall.setLeverage it.instId it.td_mode it.leverage (levPosSide it),
        ApiCall.getInstruments it.instId] ∨
    (placeAfterMode env it t tp sl).1 =
      t ++ [ApiCall.setLeverage it.instId it.td_mode it.leverage (levPosSide it),
        ApiCall.getInstruments it.instId, ApiCall.getInstruments it.instId] ∨
    ∃ p : OrderPayload,
      (placeAfterMode env it t tp sl).1 =
        t ++ [ApiCall.setLeverage it.instId it.td_mode it.leverage (levPosSide it),
          ApiCall.getInstruments it.instId, ApiCall.getInstruments it.instId,
          ApiCall.placeOrder p] := by
  unfold placeAfterMode
  split
  · exact Or.inl rfl
  · split
    · exact Or.inr (Or.inl rfl)
    · split
      · exact Or.inr (Or.inl rfl)
      · split
        · exact Or.inr (Or.inl rfl)
        · split
          · exact Or.inr (Or.inr (Or.inl rfl))
          · split
            · exact Or.inr (Or.inr (Or.inr ⟨_, rfl⟩))
            · split
              · exact Or.inr (Or.inr (Or.inr ⟨_, rfl⟩))
              · exact Or.inr (Or.inr (Or.inr ⟨_, rfl⟩))

/-- When the account mode mismatches the requested position side, a run of
`place_okx_order` either stops before the mode switch with one of the listed
traces, or performs the switch and continues in `placeAfterMode`. -/
theorem place_okx_order_trace_cases (env : MockExchange) (it : TradeIntent)
    (hmode : env.configPosMode ≠ some (desiredPosMode it.posSide)) :
    (place_okx_order env it).1 = [] ∨
    (place_okx_order env it).1 = [ApiCall.getAccountBalance] ∨
    (place_okx_order env it).1 =
      [ApiCall.getAccountBalance, ApiCall.getAccountConfig,
       ApiCall.setPositionMode (desiredPosMode it.posSide)] ∨
    ∃ tp sl : ℚ, place_okx_order env it =
      placeAfterMode env it
        [ApiCall.getAccountBalance, ApiCall.getAccountConfig,
         ApiCall.setPositionMode (desiredPosMode it.posSide)] tp sl := by
  unfold place_okx_order
  by_cases h1 : strEndsWith it.instId swapSuffix = false
  · rw [if_pos h1]; exact Or.inl rfl
  rw [if_neg h1]
  by_cases h2 : ¬(it.side = "buy" ∨ it.side = "sell")
  · rw [if_pos h2]; exact Or.inl rfl
  rw [if_neg h2]
  by_cases h3 : ¬(it.posSide = "long" ∨ it.posSide = "short" ∨ it.posSide = "net")
  · rw [if_pos h3]; exact Or.inl rfl
  rw [if_neg h3]
  rcases htp : it.take_profit with _ | tpv
  · simp only [htp]; exact Or.inl trivial
  rcases hsl : it.stop_loss with _ | slv
  · simp only [htp, hsl]; exact Or.inl trivial
  simp only [htp, hsl]
  by_cases h4 : it.usdt_amount ≤ 0 ∨ it.limit_px ≤ 0
  · rw [if_pos h4]; exact Or.inl rfl
  rw [if_neg h4]
  by_cases h5 : it.leverage ≤ 0
  · rw [if_pos h5]; exact Or.inl rfl
  rw [if_neg h5]
  by_cases h6 : env.usdtAvail < it.usdt_amount
  · rw [if_pos h6]; exact Or.inr (Or.inl rfl)
  rw [if_neg h6]
  rw [if_pos hmode]
  by_cases h8 : okCode env.switchCode = false
  · rw [if_pos h8]; exact Or.inr (Or.inr (Or.inl rfl))
  · rw [if_neg h8]; exact Or.inr (Or.inr (Or.inr ⟨_, _, rfl⟩))

/-- C2: whenever the requested position side requires a different account
position mode than the configured one and the run reaches order placement,
the mode-switch call precedes the leverage-set call, which precedes the
order-placement call, in the trace of calls issued to the exchange client. -/
theorem mode_switch_before_leverage_before_order (env : MockExchange) (it : TradeIntent)
    (hmode : env.configPosMode ≠ some (desiredPosMode it.posSide))
    (horder : ∃ p : OrderPayload, ApiCall.placeOrder p ∈ (place_okx_order env it).1) :
    ∃ p : OrderPayload,
      List.Sublist
        [ApiCall.setPositionMode (desiredPosMode it.posSide),
         ApiCall.setLeverage it.instId it.td_mode it.leverage (levPosSide it),
         ApiCall.placeOrder p]
        (place_okx_order env it).1 := by
  obtain ⟨p₀, hp₀⟩ := horder
  rcases place_okx_order_trace_cases env it hmode with h | h | h | ⟨tp, sl, h⟩
  · rw [h] at hp₀
    exact absurd hp₀ (List.not_mem_nil _)
  · rw [h] at hp₀
    simp at hp₀
  · rw [h] at hp₀
    simp at hp₀
  · rw [h] at hp₀ ⊢
    rcases placeAfterMode_trace env it
        [ApiCall.getAccountBalance, ApiCall.getAccountConfig,
         ApiCall.setPositionMode (desiredPosMode it.posSide)] tp sl with
      h4 | h4 | h4 | ⟨p, h4⟩
    · rw [h4] at hp₀; simp at hp₀
    · rw [h4] at hp₀; simp at hp₀
    · rw [h4] at hp₀; simp at hp₀
    · rw [h4]
      refine ⟨p, ?_⟩
      simp only [List.cons_append, List.nil_append]
      exact List.Sublist.cons _ (List.Sublist.cons _ (List.Sublist.cons₂ _
        (List.Sublist.cons₂ _ (List.Sublist.cons _ (List.Sublist.cons _
          (List.Sublist.cons₂ _ List.Sublist.slnil))))))

/-- A mock exchange that accepts everything: 1000 USDT available, account in
single-side (`net_mode`) position mode, all calls succeeding, unit contract
value and unit lot size. -/
def sampleEnv : MockExchange :=
  { usdtAvail := 1000, configPosMode := some "net_mode", switchCode := some "0",
    leverageCode := some "0", instrument := some { lotSz := some 1, ctVal := some 1 },
    orderCode := some "0", orderSCode := some "0", ordId := "oid", clOrdId := "cid" }

/-- A valid long intent: 100 USDT margin at price 100 with 1x leverage and
both stop levels set. -/
def sampleLongIntent : TradeIntent :=
  { instId := ['B','T','C','-','U','S','D','T','-','S','W','A','P'], side := "buy",
    posSide := "long", usdt_amount := 100, limit_px := 100,
    take_profit := some 120, stop_loss := some 80, td_mode := "isolated", leverage := 1 }

/-- Witness for C2: a long intent against a single-side-mode account reaches
order placement with the switch, leverage and order calls in that order. -/
theorem mode_switch_before_leverage_before_order_witness :
    ∃ p : OrderPayload,
      List.Sublist
        [ApiCall.setPositionMode (desiredPosMode sampleLongIntent.posSide),
         ApiCall.setLeverage sampleLongIntent.instId sampleLongIntent.td_mode
           sampleLongIntent.leverage (levPosSide sampleLongIntent),
         ApiCall.placeOrder p]
        (place_okx_order sampleEnv sampleLongIntent).1 := by
  have hsw : strEndsWith ['B','T','C','-','U','S','D','T','-','S','W','A','P'] swapSuffix = true := by
    decide
  have hne1 : ¬(("net_mode" : String) = "long_short_mode") := by decide
  have hne2 : ¬(("long" : String) = "net") := by decide
  have htr : place_okx_order sampleEnv sampleLongIntent =
      ([ApiCall.getAccountBalance, ApiCall.getAccountConfig,
        ApiCall.setPositionMode "long_short_mode",
        ApiCall.setLeverage sampleLongIntent.instId "isolated" 1 (some "long"),
        ApiCall.getInstruments sampleLongIntent.instId,
        ApiCall.getInstruments sampleLongIntent.instId,
        ApiCall.placeOrder ⟨sampleLongIntent.instId, "isolated", "buy", "long",
          100, 1, "cid", 120, 80⟩],
       Except.ok ⟨"oid", "cid", 1⟩) := by
    norm_num [place_okx_order, placeAfterMode, sampleEnv, sampleLongIntent,
      desiredPosMode, okCode, levPosSide, quantize_size, roundDownToInt, hsw, hne1, hne2]
  exact mode_switch_before_leverage_before_order sampleEnv sampleLongIntent
    (by decide)
    ⟨⟨sampleLongIntent.instId, "isolated", "buy", "long", 100, 1, "cid", 120, 80⟩,
      by rw [htr]; simp⟩

/-! ### Claim C6 -/

/-- Counterexample to C6 as stated: an intent with positive margin (100),
positive limit price (100), leverage 1 and a take-profit present but the
stop-loss absent is rejected by `place_okx_order` in its numeric-validation
step (the absent level fails `float(...)`), before any exchange call. -/
theorem stop_shape_claim_counterexample :
    place_okx_order sampleEnv
      { instId := ['B','T','C','-','U','S','D','T','-','S','W','A','P'], side := "buy",
        posSide := "long", usdt_amount := 100, limit_px := 100,
        take_profit := some 120, stop_loss := none, td_mode := "isolated", leverage := 1 } =
      ([], Except.error OrderError.notNumber) := by
  have hsw : strEndsWith ['B','T','C','-','U','S','D','T','-','S','W','A','P'] swapSuffix = true := by
    decide
  simp [place_okx_order, hsw]

/-- `placeAfterMode` never produces the numeric-validation error. -/
theorem placeAfterMode_result_not_notNumber (env : MockExchange) (it : TradeIntent)
    (t : List ApiCall) (tp sl : ℚ) :
    (placeAfterMode env it t tp sl).2 ≠ Except.error OrderError.notNumber := by
  unfold placeAfterMode
  split
  · simp
  · split
    · simp
    · split
      · simp
      · split
        · simp
        · split
          · simp
          · split
            · simp
            · split
              · simp
              · simp

/-- C6 (amended): `place_okx_order` rejects the stop-level shape as a
validation error whenever either the take-profit or the stop-loss is absent
(both are mandatory), and never raises that rejection when both are present. -/
theorem stop_levels_both_required (env : MockExchange) (it : TradeIntent) :
    ((it.take_profit = none ∨ it.stop_loss = none) →
      strEndsWith it.instId swapSuffix = true →
      (it.side = "buy" ∨ it.side = "sell") →
      (it.posSide = "long" ∨ it.posSide = "short" ∨ it.posSide = "net") →
      place_okx_order env it = ([], Except.error OrderError.notNumber)) ∧
    (∀ a b : ℚ, it.take_profit = some a → it.stop_loss = some b →
      (place_okx_order env it).2 ≠ Except.error OrderError.notNumber) := by
  constructor
  · intro habs hsw hside hpos
    unfold place_okx_order
    rw [if_neg (by simp [hsw])]
    rw [if_neg (not_not_intro hside)]
    rw [if_neg (not_not_intro hpos)]
    rcases habs with h | h
    · simp only [h]
    · rcases htp : it.take_profit with _ | a
      · simp only [htp]
      · simp only [htp, h]
  · intro a b hta htb hcontra
    unfold place_okx_order at hcontra
    by_cases h1 : strEndsWith it.instId swapSuffix = false
    · rw [if_pos h1] at hcontra; simp at hcontra
    rw [if_neg h1] at hcontra
    by_cases h2 : ¬(it.side = "buy" ∨ it.side = "sell")
    · rw [if_pos h2] at hcontra; simp at hcontra
    rw [if_neg h2] at hcontra
    by_cases h3 : ¬(it.posSide = "long" ∨ it.posSide = "short" ∨ it.posSide = "net")
    · rw [if_pos h3] at hcontra; simp at hcontra
    rw [if_neg h3] at hcontra
    simp only [hta, htb] at hcontra
    by_cases h4 : it.usdt_amount ≤ 0 ∨ it.limit_px ≤ 0
    · rw [if_pos h4] at hcontra; simp at hcontra
    rw [if_neg h4] at hcontra
    by_cases h5 : it.leverage ≤ 0
    · rw [if_pos h5] at hcontra; simp at hcontra
    rw [if_neg h5] at hcontra
    by_cases h6 : env.usdtAvail < it.usdt_amount
    · rw [if_pos h6] at hcontra; simp at hcontra
    rw [if_neg h6] at hcontra
    by_cases h7 : env.configPosMode ≠ some (desiredPosMode it.posSide)
    · rw [if_pos h7] at hcontra
      by_cases h8 : okCode env.switchCode = false
      · rw [if_pos h8] at hcontra; simp at hcontra
      · rw [if_neg h8] at hcontra
        exact placeAfterMode_result_not_notNumber env it _ a b hcontra
    · rw [if_neg h7] at hcontra
      exact placeAfterMode_result_not_notNumber env it _ a b hcontra

/-- Witness for C6 (amended): the one-stop-missing intent is rejected by the
numeric validation, while the intent with both stops never is. -/
theorem stop_levels_both_required_witness :
    place_okx_order sampleEnv { sampleLongIntent with stop_loss := none } =
      ([], Except.error OrderError.notNumber) ∧
    (place_okx_order sampleEnv sampleLongIntent).2 ≠ Except.error OrderError.notNumber := by
  constructor
  · exact (stop_levels_both_required sampleEnv
      { sampleLongIntent with stop_loss := none }).1
      (Or.inr rfl) (by decide) (Or.inl rfl) (Or.inl rfl)
  · exact (stop_levels_both_required sampleEnv sampleLongIntent).2 120 80 rfl rfl
